import Mathlib

/-!
Verification of the cursper repository: a shallow embedding of the
settings frontend (`src/routes/+page.svelte`), together with models of the
core components that the repository only calls into (orchestrator state
machine, backend supervisor, transcription client, shortcut manager),
modelled from the specification where the implementation is not part of
the source tree.
-/

namespace Cursper

/-! ## String utilities mirroring JavaScript string primitives -/

/-- Does the pattern occur at the head of the character list? -/
def leadsWith : List Char → List Char → Bool
  | [], _ => true
  | _ :: _, [] => false
  | p :: ps, c :: cs => p == c && leadsWith ps cs

/-- Substring occurrence test, mirroring JS `String.prototype.includes`. -/
def containsSub (pat : List Char) : List Char → Bool
  | [] => pat.isEmpty
  | c :: cs => leadsWith pat (c :: cs) || containsSub pat cs

/-- Substring occurrence test on strings. -/
def strContains (s pat : String) : Bool :=
  containsSub pat.data s.data

/-- Replace the first occurrence of `pat` in the character list with `rep`,
mirroring JS `String.prototype.replace` with a string pattern (only the
first occurrence is replaced; an empty pattern matches at position 0). -/
def replaceFirstAux (pat rep : List Char) : List Char → List Char
  | [] => if pat.isEmpty then rep else []
  | c :: cs =>
    if leadsWith pat (c :: cs) then rep ++ (c :: cs).drop pat.length
    else c :: replaceFirstAux pat rep cs

/-- Replace the first occurrence of `pat` in `s` with `rep` (JS `replace`). -/
def replaceFirst (s pat rep : String) : String :=
  ⟨replaceFirstAux pat.data rep.data s.data⟩

/-- Is the character ASCII whitespace (as stripped by JS `trim`)? -/
def isJsSpace (c : Char) : Bool :=
  c == ' ' || c == '\t' || c == '\n' || c == '\r'

/-- Strip leading and trailing whitespace, mirroring JS
`String.prototype.trim` on ASCII whitespace. -/
def jsTrim (s : String) : String :=
  ⟨((s.data.dropWhile (fun c => isJsSpace c)).reverse.dropWhile
      (fun c => isJsSpace c)).reverse⟩

/-- Lowercase a string, mirroring JS `String.prototype.toLowerCase` on the
ASCII range used by the user-agent checks. -/
def jsToLower (s : String) : String :=
  ⟨s.data.map Char.toLower⟩

/-! ## Frontend state, from the `$state` declarations of
`src/routes/+page.svelte` lines 5-13. -/

/-- The reactive component state of the settings page. -/
structure UIState where
  currentModel : String
  availableModels : List String
  isRecording : Bool
  backendStatus : String
  statusMessage : String
  currentPlatform : String
  currentShortcut : String
  isEditingShortcut : Bool
  tempShortcut : String
deriving DecidableEq

/-- Initial values of the `$state` declarations (+page.svelte lines 5-13). -/
def initialUIState : UIState :=
  { currentModel := "base"
    availableModels := []
    isRecording := false
    backendStatus := "checking"
    statusMessage := "Initializing..."
    currentPlatform := "unknown"
    currentShortcut := "Option+Space"
    isEditingShortcut := false
    tempShortcut := "" }

/-- `getShortcutDisplay` (+page.svelte lines 16-31), as a function of the
`currentPlatform` state it reads and the shortcut argument. Each
`.replace` call replaces only the first occurrence of its pattern. -/
def getShortcutDisplay (currentPlatform : String) (shortcut : String) : String :=
  if currentPlatform = "macos" then
    replaceFirst (replaceFirst (replaceFirst (replaceFirst (replaceFirst
      (replaceFirst shortcut "CmdOrCtrl" "⌘") "Cmd" "⌘") "Ctrl" "⌃")
      "Shift" "⇧") "Alt" "⌥") "Space" "Space"
  else
    replaceFirst (replaceFirst (replaceFirst shortcut "CmdOrCtrl" "Ctrl")
      "Cmd" "Ctrl") "+" " + "

/-- `checkBackendStatus` (+page.svelte lines 33-44). The result of the
`get_available_models` invoke is passed in as an oracle: `.ok models` for a
resolved promise, `.error e` for a rejected one. -/
def checkBackendStatus (res : Except String (List String)) (st : UIState) :
    UIState :=
  match res with
  | .ok models =>
    { st with availableModels := models, backendStatus := "connected",
              statusMessage := "Backend connected ✅" }
  | .error _ =>
    { st with backendStatus := "disconnected",
              statusMessage := "Backend disconnected ❌" }

/-- `setModel` (+page.svelte lines 46-55); the `set_whisper_model` invoke
outcome is an oracle parameter. -/
def setModel (res : Except String Unit) (model : String) (st : UIState) :
    UIState :=
  match res with
  | .ok _ =>
    { st with currentModel := model,
              statusMessage := "Model set to " ++ model ++ " ✅" }
  | .error e =>
    { st with statusMessage := "Failed to set model: " ++ e }

/-- `toggleRecording` (+page.svelte lines 69-78); the `toggle_recording`
invoke outcome is an oracle parameter. On success the flag flips and the
message reflects the new value; on failure the flag is untouched. -/
def toggleRecording (res : Except String Unit) (st : UIState) : UIState :=
  match res with
  | .ok _ =>
    let r := !st.isRecording
    { st with isRecording := r,
              statusMessage := if r then "Recording..."
                               else "Recording stopped" }
  | .error e =>
    { st with statusMessage := "Recording error: " ++ e }

/-- `updateShortcut` (+page.svelte lines 80-90); the
`update_global_shortcut` invoke outcome is an oracle parameter.
`currentShortcut` is assigned only on the success path. -/
def updateShortcut (res : Except String Unit) (newShortcut : String)
    (st : UIState) : UIState :=
  match res with
  | .ok _ =>
    { st with currentShortcut := newShortcut,
              statusMessage := "Shortcut updated to " ++
                getShortcutDisplay st.currentPlatform newShortcut ++ " ✅",
              isEditingShortcut := false }
  | .error e =>
    { st with statusMessage := "Failed to update shortcut: " ++ e }

/-- `saveShortcut` (+page.svelte lines 102-106): `updateShortcut` is called
only when `tempShortcut.trim()` is truthy, i.e. non-empty. -/
def saveShortcut (res : Except String Unit) (st : UIState) : UIState :=
  if jsTrim st.tempShortcut = "" then st
  else updateShortcut res st.tempShortcut st

/-- The platform-detection part of `onMount` (+page.svelte lines 108-122):
lowercases the user agent, sets `currentPlatform` and overwrites
`currentShortcut` with a platform-derived default. `currentModel` is not
touched anywhere in `onMount`. -/
def onMountPlatformInit (userAgent : String) (st : UIState) : UIState :=
  if strContains (jsToLower userAgent) "mac" then
    { st with currentPlatform := "macos", currentShortcut := "Option+Space" }
  else if strContains (jsToLower userAgent) "win" then
    { st with currentPlatform := "windows", currentShortcut := "Alt+Space" }
  else
    { st with currentPlatform := "linux", currentShortcut := "Alt+Space" }

/-- Is the `Except` value a success? -/
def exceptIsOk {ε α : Type} : Except ε α → Bool
  | .ok _ => true
  | .error _ => false

/-- The frontend state observed after a fresh process start: the `$state`
initializers followed by the `onMount` platform initialisation. No load
hook is invoked anywhere in the component. -/
def afterRestart (userAgent : String) : UIState :=
  onMountPlatformInit userAgent initialUIState

/-- The poll interval passed to `setInterval(checkBackendStatus, 10000)`
(+page.svelte line 128), in milliseconds. -/
def healthPollIntervalMs : Nat := 10000

/-- The model-grid button (+page.svelte lines 190-206) carries
`disabled={backendStatus !== 'connected'}`; a click issues the
`set_whisper_model` request only when the button is enabled. -/
def clickSetModel (st : UIState) (model : String) :
    Option (String × String) :=
  if st.backendStatus = "connected" then some ("set_whisper_model", model)
  else none

/-- The record button (+page.svelte lines 213-219) carries
`disabled={backendStatus !== 'connected'}`; a click issues the
`toggle_recording` request only when the button is enabled. -/
def clickToggleRecording (st : UIState) : Option String :=
  if st.backendStatus = "connected" then some "toggle_recording"
  else none

/-- The Tauri commands invoked anywhere in the frontend, in order of first
appearance in +page.svelte: `checkBackendStatus` (line 35), `setModel`
(line 48), `startBackend` (line 59), `toggleRecording` (line 71),
`updateShortcut` (line 82). -/
def uiInvokedCommands : List String :=
  ["get_available_models", "set_whisper_model", "start_backend",
   "toggle_recording", "update_global_shortcut"]

/-- Modelled from the spec: the command surface of §6 exposed to the
presentation layer; the command handlers themselves (Rust side) are not
part of the source tree. -/
def specCommandSurface : List String :=
  ["get_available_models", "set_whisper_model", "start_backend",
   "toggle_recording", "update_global_shortcut"]

/-! ## Core components modelled from the spec

The Rust orchestrator/supervisor/client/shortcut-manager core and the
Python service are not part of the source tree (only the frontend that
calls into them is), so they are modelled from the specification text. -/

/-- Modelled from the spec (§7 error taxonomy); the Rust error enum is not
in the source tree. -/
inductive CoreErr
  | CaptureUnavailable
  | InvalidBinding
  | BackendUnavailable
  | TranscriptionTimeout
  | TranscriptionFailed
  | InjectionFailed
  | ModelSwitchFailed
deriving DecidableEq

/-- Modelled from the spec (§4.1): the orchestrator state machine phases;
the Rust implementation is not in the source tree. -/
inductive Phase
  | Idle
  | Recording
  | Transcribing
  | Inserting
  | Error
deriving DecidableEq

/-- Modelled from the spec (§4.1): orchestrator state with the number of
live `RecordingSession` values it owns. -/
structure OrchState where
  phase : Phase
  liveSessions : Nat
deriving DecidableEq

/-- Modelled from the spec (§4.1): the events driving the orchestrator. A
toggle carries whether audio-capture start succeeds and whether the
captured buffer is empty/below the minimum duration. -/
inductive OrchEvent
  | toggle (captureOk : Bool) (bufferTooShort : Bool)
  | transcribeOk
  | transcribeFail
  | insertDone
  | errorAuto
deriving DecidableEq

/-- Modelled from the spec (§4.1 transitions): a session is created when
leaving `Idle` and destroyed when insertion completes or the session is
aborted; a toggle in `Transcribing`/`Inserting` is ignored (single-flight);
a toggle in `Error` is conservatively ignored (§9 notes the behavior is an
open question). -/
def orchStep (s : OrchState) (e : OrchEvent) : OrchState :=
  match e with
  | .toggle captureOk bufferTooShort =>
    match s.phase with
    | .Idle =>
      if captureOk then ⟨.Recording, s.liveSessions + 1⟩ else s
    | .Recording =>
      if bufferTooShort then ⟨.Idle, s.liveSessions - 1⟩
      else ⟨.Transcribing, s.liveSessions⟩
    | .Transcribing => s
    | .Inserting => s
    | .Error => s
  | .transcribeOk =>
    match s.phase with
    | .Transcribing => ⟨.Inserting, s.liveSessions⟩
    | _ => s
  | .transcribeFail =>
    match s.phase with
    | .Transcribing => ⟨.Error, s.liveSessions⟩
    | _ => s
  | .insertDone =>
    match s.phase with
    | .Inserting => ⟨.Idle, s.liveSessions - 1⟩
    | _ => s
  | .errorAuto =>
    match s.phase with
    | .Error => ⟨.Idle, s.liveSessions - 1⟩
    | _ => s

/-- The orchestrator starts idle with no session. -/
def orchInit : OrchState := ⟨.Idle, 0⟩

/-- States reachable from the initial orchestrator state under any event
sequence. -/
inductive OrchReachable : OrchState → Prop
  | init : OrchReachable orchInit
  | step {s : OrchState} (e : OrchEvent) :
      OrchReachable s → OrchReachable (orchStep s e)

/-- The session-counting invariant: exactly one live session outside
`Idle`, none in `Idle`. -/
def orchInv (s : OrchState) : Prop :=
  s.liveSessions = if s.phase = Phase.Idle then 0 else 1

/-- Modelled from the spec (§2, §4.2): the transcription-service backend
status as tracked by the supervisor. -/
inductive BackendStatus
  | Starting
  | Healthy
  | Unresponsive
  | Stopped
deriving DecidableEq

/-- Modelled from the spec (§4.3): outcome of a single transcription
attempt by the service. -/
inductive TranscribeOutcome
  | ok (text : String)
  | timeout
  | failure
deriving DecidableEq

/-- Modelled from the spec (§4.3): the transcription client call. It
requires the supervisor to report `Healthy`, otherwise it short-circuits
with `BackendUnavailable` making no network attempt; on timeout the call is
aborted and reported as `TranscriptionTimeout`, never retried. The second
component counts network attempts. -/
def clientTranscribe (status : BackendStatus)
    (outcome : TranscribeOutcome) : Except CoreErr String × Nat :=
  if status = .Healthy then
    match outcome with
    | .ok t => (Except.ok t, 1)
    | .timeout => (Except.error CoreErr.TranscriptionTimeout, 1)
    | .failure => (Except.error CoreErr.TranscriptionFailed, 1)
  else
    (Except.error CoreErr.BackendUnavailable, 0)

/-- Modelled from the spec (§4.3): gate shared by every client call:
`Healthy` lets the network call proceed, anything else short-circuits with
`BackendUnavailable`. First component: error, second: whether a network
call was attempted. -/
def clientGate (status : BackendStatus) : Option CoreErr × Bool :=
  if status = .Healthy then (none, true)
  else (some CoreErr.BackendUnavailable, false)

/-- Modelled from the spec (§4.1, §8): a full session driven through the
orchestrator once recording has stopped: on transcription success the text
is injected in `Inserting` and the machine returns to `Idle`; on any
failure the machine passes through `Error` back to `Idle` with no
injection. Returns final orchestrator state, reported error, and the list
of injected texts. -/
def sessionFinish (status : BackendStatus) (outcome : TranscribeOutcome) :
    OrchState × Option CoreErr × List String :=
  let started := orchStep (orchStep orchInit (.toggle true false))
    (.toggle true false)
  match (clientTranscribe status outcome).1 with
  | .ok t =>
    (orchStep (orchStep started .transcribeOk) .insertDone, none, [t])
  | .error e =>
    (orchStep (orchStep started .transcribeFail) .errorAuto, some e, [])

/-- Modelled from the spec (§4.2): the supervised transcription-service
process; `respondsToTerm` says whether it exits within the grace period
after the termination signal. -/
structure BackendProc where
  alive : Bool
  respondsToTerm : Bool
deriving DecidableEq

/-- Modelled from the spec (§4.2): send the termination signal and wait the
bounded grace period; a cooperative process is dead afterwards. -/
def sendTerminationSignal (p : BackendProc) : BackendProc :=
  if p.respondsToTerm then { p with alive := false } else p

/-- Modelled from the spec (§4.2): forceful kill unconditionally terminates
the process. -/
def forceKill (p : BackendProc) : BackendProc :=
  { p with alive := false }

/-- Modelled from the spec (§4.2): `shutdown()` sends a termination signal,
waits a bounded grace period, then forcefully kills the process if it is
still alive. -/
def shutdownBackend (p : BackendProc) : BackendProc :=
  let afterGrace := sendTerminationSignal p
  if afterGrace.alive then forceKill afterGrace else afterGrace

/-- Modelled from the spec (§3 `ShortcutBinding`): canonical modifier set
plus key. -/
structure ShortcutBinding where
  modifiers : List String
  key : String
deriving DecidableEq

/-- Split a character list on the `'+'` separator. -/
def splitPlus : List Char → List Char → List (List Char)
  | [], acc => [acc.reverse]
  | c :: cs, acc =>
    if c = '+' then acc.reverse :: splitPlus cs []
    else splitPlus cs (c :: acc)

/-- Modelled from the spec (§4.5): parse the textual spec into a canonical
modifier set plus key; an empty spec fails validation. -/
def parseBinding (raw : String) : Option ShortcutBinding :=
  if jsTrim raw = "" then none
  else
    match (splitPlus raw.data []).reverse with
    | [] => none
    | k :: ms => some ⟨ms.reverse.map String.mk, String.mk k⟩

/-- Modelled from the spec (§4.5): the shortcut manager holds the single
active OS-level binding. -/
structure ShortcutManager where
  active : Option ShortcutBinding
deriving DecidableEq

/-- Modelled from the spec (§4.5): `rebind` parses the spec, rejects
invalid ones with `InvalidBinding`, and atomically swaps the OS hook — the
old hook is unregistered only after the new one is confirmed, so any
failure (parse or OS registration, the latter an oracle parameter) leaves
the previous binding active. -/
def rebind (regOk : Bool) (m : ShortcutManager) (raw : String) :
    ShortcutManager × Except CoreErr Unit :=
  match parseBinding raw with
  | none => (m, .error CoreErr.InvalidBinding)
  | some b =>
    if regOk then (⟨some b⟩, .ok ()) else (m, .error CoreErr.InvalidBinding)

/-! ## Theorems -/

/-- The session-counting invariant holds initially. -/
theorem orchInv_init_holds : orchInv orchInit := by
  simp [orchInv, orchInit]

/-- The session-counting invariant is preserved by every orchestrator
step. -/
theorem orchInv_preserved (s : OrchState) (e : OrchEvent) (h : orchInv s) :
    orchInv (orchStep s e) := by
  obtain ⟨ph, n⟩ := s
  cases e with
  | toggle c b =>
    cases c <;> cases b <;> cases ph <;> simp_all [orchInv, orchStep]
  | transcribeOk => cases ph <;> simp_all [orchInv, orchStep]
  | transcribeFail => cases ph <;> simp_all [orchInv, orchStep]
  | insertDone => cases ph <;> simp_all [orchInv, orchStep]
  | errorAuto => cases ph <;> simp_all [orchInv, orchStep]

/-- Every reachable orchestrator state satisfies the session-counting
invariant. -/
theorem orchReachable_inv {s : OrchState} (h : OrchReachable s) :
    orchInv s := by
  induction h with
  | init => exact orchInv_init_holds
  | step e _ ih => exact orchInv_preserved _ e ih

/-- Claim C1: a toggle arriving while the orchestrator is in
`Transcribing` or `Inserting` changes neither the state nor the session,
and no reachable state holds two live sessions. -/
theorem single_flight_at_most_one_session :
    (∀ (s : OrchState) (c b : Bool),
        s.phase = Phase.Transcribing ∨ s.phase = Phase.Inserting →
        orchStep s (OrchEvent.toggle c b) = s) ∧
    (∀ s : OrchState, OrchReachable s → s.liveSessions ≤ 1) := by
  constructor
  · intro s c b h
    obtain ⟨ph, n⟩ := s
    rcases h with h | h <;> (simp only at h; subst h) <;> rfl
  · intro s h
    have hi := orchReachable_inv h
    rw [orchInv] at hi
    rw [hi]
    split <;> simp

/-- Concrete instantiation of `single_flight_at_most_one_session`: a toggle
during `Transcribing` is ignored, and the initial state has at most one
session. -/
theorem single_flight_at_most_one_session_witness :
    orchStep ⟨Phase.Transcribing, 1⟩ (OrchEvent.toggle true false) =
      (⟨Phase.Transcribing, 1⟩ : OrchState) ∧
    orchInit.liveSessions ≤ 1 :=
  ⟨single_flight_at_most_one_session.1 ⟨Phase.Transcribing, 1⟩ true false
      (Or.inl rfl),
   single_flight_at_most_one_session.2 orchInit OrchReachable.init⟩

/-- Claim C2: while the backend is not `Healthy`/connected, the client
short-circuits with `BackendUnavailable` without a network attempt, and
the settings UI buttons for `set_whisper_model` and `toggle_recording`
issue no request. -/
theorem no_request_when_backend_unhealthy :
    (∀ st : BackendStatus, st ≠ BackendStatus.Healthy →
        clientGate st = (some CoreErr.BackendUnavailable, false)) ∧
    (∀ (ui : UIState) (m : String), ui.backendStatus ≠ "connected" →
        clickSetModel ui m = none ∧ clickToggleRecording ui = none) := by
  constructor
  · intro st h
    simp [clientGate, h]
  · intro ui m h
    exact ⟨by simp [clickSetModel, h], by simp [clickToggleRecording, h]⟩

/-- Concrete instantiation of `no_request_when_backend_unhealthy` at a
stopped backend and a disconnected UI. -/
theorem no_request_when_backend_unhealthy_witness :
    clientGate BackendStatus.Stopped =
      (some CoreErr.BackendUnavailable, false) ∧
    clickSetModel { initialUIState with backendStatus := "disconnected" }
      "tiny" = none :=
  ⟨no_request_when_backend_unhealthy.1 BackendStatus.Stopped (by decide),
   (no_request_when_backend_unhealthy.2
      { initialUIState with backendStatus := "disconnected" } "tiny"
      (by decide)).1⟩

/-- Claim C3: every rebind with an invalid spec or a failed registration
leaves the previous binding unchanged; rebinding to "Ctrl+Shift+Space" and
then rebinding with spec "" leaves the active binding at
"Ctrl+Shift+Space". In the frontend, `saveShortcut` does not even call
`updateShortcut` for a whitespace-only spec, and a failed
`update_global_shortcut` invoke leaves `currentShortcut` unchanged. -/
theorem failed_rebind_preserves_binding :
    (∀ (m : ShortcutManager) (raw : String) (regOk : Bool) (e : CoreErr),
        (rebind regOk m raw).2 = .error e → (rebind regOk m raw).1 = m) ∧
    ((rebind true (rebind true ⟨none⟩ "Ctrl+Shift+Space").1 "").1 =
        (rebind true ⟨none⟩ "Ctrl+Shift+Space").1 ∧
      (rebind true ⟨none⟩ "Ctrl+Shift+Space").1.active =
        some ⟨["Ctrl", "Shift"], "Space"⟩) ∧
    (∀ (st : UIState) (res : Except String Unit),
        jsTrim st.tempShortcut = "" → saveShortcut res st = st) ∧
    (∀ (st : UIState) (e ns : String),
        (updateShortcut (.error e) ns st).currentShortcut =
          st.currentShortcut) := by
  refine ⟨?_, by decide, ?_, fun st e ns => rfl⟩
  · intro m raw regOk e h
    cases hp : parseBinding raw with
    | none => simp [rebind, hp]
    | some b =>
      cases regOk with
      | true => simp [rebind, hp] at h
      | false => simp [rebind, hp]
  · intro st res h
    simp [saveShortcut, h]

/-- Concrete instantiation of `failed_rebind_preserves_binding`: a
registration failure leaves the manager unchanged, and an empty temp
shortcut makes `saveShortcut` a no-op. -/
theorem failed_rebind_preserves_binding_witness :
    (rebind false ⟨none⟩ "Ctrl+Shift+Space").1 =
      (⟨none⟩ : ShortcutManager) ∧
    saveShortcut (.ok ()) initialUIState = initialUIState :=
  ⟨failed_rebind_preserves_binding.1 ⟨none⟩ "Ctrl+Shift+Space" false
      CoreErr.InvalidBinding rfl,
   failed_rebind_preserves_binding.2.2.1 initialUIState (.ok ())
      (by decide)⟩

/-- Claim C4: the commands the frontend invokes are exactly the five
operations of the spec's command surface, with no duplicates. -/
theorem command_surface_exactly_five :
    uiInvokedCommands = specCommandSurface ∧
    uiInvokedCommands.length = 5 ∧ uiInvokedCommands.Nodup := by
  exact ⟨rfl, rfl, by decide⟩

/-- Counterexample to claim C5 as stated: starting the frontend never
consults previously saved values — with model "small" and shortcut
"Ctrl+Shift+Space" saved before a restart, the state observed after the
restart (on a Linux user agent) is the built-in default model "base" and
the platform-derived shortcut "Alt+Space". -/
theorem persisted_settings_cex :
    (afterRestart "mozilla linux x11").currentModel = "base" ∧
    "base" ≠ "small" ∧
    (afterRestart "mozilla linux x11").currentShortcut = "Alt+Space" ∧
    "Alt+Space" ≠ "Ctrl+Shift+Space" := by
  exact ⟨by decide, by decide, by decide, by decide⟩

/-- Claim C5 amended: the frontend invokes no load hook, so after every
restart the model is reset to the built-in default "base" and the shortcut
to a platform-derived default ("Option+Space" or "Alt+Space"), whatever
was in use before. -/
theorem settings_reset_to_defaults_on_restart :
    ∀ ua : String, (afterRestart ua).currentModel = "base" ∧
      ((afterRestart ua).currentShortcut = "Option+Space" ∨
        (afterRestart ua).currentShortcut = "Alt+Space") := by
  intro ua
  simp only [afterRestart, onMountPlatformInit]
  by_cases h1 : strContains (jsToLower ua) "mac"
  · simp [h1, initialUIState]
  · by_cases h2 : strContains (jsToLower ua) "win"
    · simp [h1, h2, initialUIState]
    · simp [h1, h2, initialUIState]

/-- Claim C6: with a healthy backend whose transcription attempt times
out, the session reports `TranscriptionTimeout`, makes exactly one network
attempt (no automatic retry), ends with the orchestrator back in the
initial `Idle` state, and performs zero injections. -/
theorem transcription_timeout_ends_idle_no_injection :
    sessionFinish BackendStatus.Healthy TranscribeOutcome.timeout =
      (orchInit, some CoreErr.TranscriptionTimeout, []) ∧
    (clientTranscribe BackendStatus.Healthy TranscribeOutcome.timeout).2
      = 1 := by
  exact ⟨rfl, rfl⟩

/-- Claim C7: `shutdown()` — termination signal, bounded grace period,
then forceful kill — always leaves the transcription-service process dead,
whether or not it responds to the termination signal. -/
theorem shutdown_leaves_no_orphan :
    ∀ p : BackendProc, (shutdownBackend p).alive = false := by
  intro p
  obtain ⟨a, r⟩ := p
  cases a <;> cases r <;>
    simp [shutdownBackend, sendTerminationSignal, forceKill]

/-- Claim C8: the frontend re-polls backend health every 10000 ms (10
seconds), and each poll reports status "connected" exactly when the
`get_available_models` probe succeeds and "disconnected" exactly when it
fails. -/
theorem health_poll_every_10s_status_iff :
    healthPollIntervalMs = 10 * 1000 ∧
    (∀ (st : UIState) (res : Except String (List String)),
      ((checkBackendStatus res st).backendStatus = "connected" ↔
        exceptIsOk res = true) ∧
      ((checkBackendStatus res st).backendStatus = "disconnected" ↔
        exceptIsOk res = false)) := by
  refine ⟨rfl, ?_⟩
  intro st res
  cases res with
  | ok ms =>
    constructor
    · simp [checkBackendStatus, exceptIsOk]
    · simp only [checkBackendStatus, exceptIsOk]
      decide
  | error e =>
    constructor
    · simp only [checkBackendStatus, exceptIsOk]
      decide
    · simp [checkBackendStatus, exceptIsOk]

/-- Claim C9: `getShortcutDisplay` is a function of platform and shortcut;
on non-macOS platforms only the first "+" is spaced, so "Ctrl+Alt+V"
renders as "Ctrl + Alt+V", while on macOS each modifier name is replaced
at most once, at its first occurrence. -/
theorem shortcut_display_first_occurrence_only :
    getShortcutDisplay "linux" "Ctrl+Alt+V" = "Ctrl + Alt+V" ∧
    getShortcutDisplay "windows" "Ctrl+Alt+V" = "Ctrl + Alt+V" ∧
    getShortcutDisplay "linux" "Alt+Space" = "Alt + Space" ∧
    getShortcutDisplay "macos" "Shift+Shift+A" = "⇧+Shift+A" ∧
    getShortcutDisplay "macos" "Cmd+Shift+V" = "⌘+⇧+V" := by
  exact ⟨rfl, rfl, rfl, rfl, rfl⟩

/-- Claim C10: a successful `toggle_recording` invoke flips `isRecording`,
a failed one leaves it unchanged, and two consecutive successful invokes
restore the prior value. -/
theorem toggle_recording_flips_iff_success :
    (∀ st : UIState,
        (toggleRecording (.ok ()) st).isRecording = !st.isRecording) ∧
    (∀ (st : UIState) (e : String),
        (toggleRecording (.error e) st).isRecording = st.isRecording) ∧
    (∀ st : UIState,
        (toggleRecording (.ok ()) (toggleRecording (.ok ()) st)).isRecording
          = st.isRecording) := by
  refine ⟨fun st => rfl, fun st e => rfl, fun st => ?_⟩
  simp [toggleRecording]

end Cursper
